import Mathlib

/-!
Verification of the CAN-bus edge-gateway specification against the source of
the edge gateway (services/obd2_decoder.py, services/uds_decoder.py,
services/uds_validator.py, services/can_interface.py, services/obd2_poller.py,
services/local_buffer.py).  Byte strings are embedded as `List Nat`, Python
floats as `ℚ`, dictionaries as structures, and the SQLite spool as a list of
rows kept in insertion (= timestamp) order.
-/

/-- Python `data[i]` on a byte string; every use site in the source is guarded
by a length check, so the default 0 is never observable. -/
def byteAt (data : List Nat) (i : Nat) : Nat := data.getD i 0

/-- Python `hex(n)` for a nonnegative `n`: "0x" followed by lowercase hex digits. -/
def pyHex (n : Nat) : String := "0x" ++ String.mk (Nat.toDigits 16 n)

/-- Python `round` ties-to-even on an exact rational: nearest integer, halves
going to the even neighbour. -/
def round_half_even (q : ℚ) : ℤ :=
  let f := ⌊q⌋
  let r := q - f
  if r < 1/2 then f
  else if 1/2 < r then f + 1
  else if f % 2 = 0 then f else f + 1

/-- Python `round(q, 2)` on an exact rational. -/
def py_round2 (q : ℚ) : ℚ := (round_half_even (q * 100) : ℚ) / 100

namespace OBD2

/-- One entry of `OBD2Decoder.PID_DEFINITIONS` (obd2_decoder.py lines 89-150). -/
structure PidDef where
  name : String
  unit : String
  bytes : Nat
  formula : List Nat → ℚ

/-- `OBD2Decoder.PID_DEFINITIONS`: the first-class PID table with conversion
formulas (obd2_decoder.py lines 89-150). -/
def pid_definitions (pid : Nat) : Option PidDef :=
  if pid = 0x0C then some ⟨"engine_rpm", "rpm", 2,
    fun d => ((byteAt d 0 : ℚ) * 256 + (byteAt d 1 : ℚ)) / 4⟩
  else if pid = 0x0D then some ⟨"vehicle_speed", "km/h", 1,
    fun d => (byteAt d 0 : ℚ)⟩
  else if pid = 0x05 then some ⟨"coolant_temp", "celsius", 1,
    fun d => (byteAt d 0 : ℚ) - 40⟩
  else if pid = 0x11 then some ⟨"throttle_position", "percent", 1,
    fun d => ((byteAt d 0 : ℚ) * 100) / 255⟩
  else if pid = 0x2F then some ⟨"fuel_level", "percent", 1,
    fun d => ((byteAt d 0 : ℚ) * 100) / 255⟩
  else if pid = 0x0F then some ⟨"intake_air_temp", "celsius", 1,
    fun d => (byteAt d 0 : ℚ) - 40⟩
  else if pid = 0x10 then some ⟨"maf_flow_rate", "g/s", 2,
    fun d => ((byteAt d 0 : ℚ) * 256 + (byteAt d 1 : ℚ)) / 100⟩
  else if pid = 0x04 then some ⟨"engine_load", "percent", 1,
    fun d => ((byteAt d 0 : ℚ) * 100) / 255⟩
  else if pid = 0x0E then some ⟨"timing_advance", "degrees", 1,
    fun d => ((byteAt d 0 : ℚ) / 2) - 64⟩
  else if pid = 0x42 then some ⟨"control_module_voltage", "volts", 2,
    fun d => ((byteAt d 0 : ℚ) * 256 + (byteAt d 1 : ℚ)) / 1000⟩
  else none

/-- `OBD2Parameter` (obd2_decoder.py lines 29-46). -/
structure OBD2Parameter where
  name : String
  pid : Nat
  value : ℚ
  unit : String
  raw_value : List Nat
  deriving DecidableEq

/-- `OBD2Message` (obd2_decoder.py lines 49-82), with the `__post_init__`
defaults. -/
structure OBD2Message where
  mode : Nat
  mode_name : String
  pid : Option Nat := none
  parameters : List OBD2Parameter := []
  dtcs : List String := []
  is_response : Bool := false
  deriving DecidableEq

/-- `OBD2Decoder._get_mode_name` over the `OBD2Mode` enum
(obd2_decoder.py lines 15-26 and 193-198). -/
def get_mode_name (mode : Nat) : String :=
  if mode = 0x01 then "SHOW_CURRENT_DATA"
  else if mode = 0x02 then "SHOW_FREEZE_FRAME"
  else if mode = 0x03 then "SHOW_STORED_DTCS"
  else if mode = 0x04 then "CLEAR_DTCS"
  else if mode = 0x05 then "TEST_RESULTS_O2"
  else if mode = 0x06 then "TEST_RESULTS_OTHER"
  else if mode = 0x07 then "SHOW_PENDING_DTCS"
  else if mode = 0x08 then "CONTROL_OPERATION"
  else if mode = 0x09 then "REQUEST_VEHICLE_INFO"
  else if mode = 0x0A then "PERMANENT_DTCS"
  else "UNKNOWN_MODE_" ++ pyHex mode

/-- The `prefixes` lookup with default 'P' in `OBD2Decoder._decode_dtc`
(obd2_decoder.py lines 306-307). -/
def obd2_dtc_letter (c : Nat) : String :=
  if c = 0 then "P" else if c = 1 then "C" else if c = 2 then "B"
  else if c = 3 then "U" else "P"

/-- `OBD2Decoder._decode_dtc` (obd2_decoder.py lines 289-319): 2-byte DTC to
string.  The source formats each 4-bit digit with a plain f-string, i.e. in
decimal (`Nat.repr`), not hex. -/
def decode_dtc (dtc_bytes : List Nat) : Option String :=
  if dtc_bytes.length ≠ 2 then none
  else
    let first_byte := byteAt dtc_bytes 0
    let prefix_code := (first_byte >>> 6) &&& 0x03
    let first_digit := (first_byte >>> 4) &&& 0x03
    let second_digit := first_byte &&& 0x0F
    let third_digit := (byteAt dtc_bytes 1 >>> 4) &&& 0x0F
    let fourth_digit := byteAt dtc_bytes 1 &&& 0x0F
    some (obd2_dtc_letter prefix_code ++ Nat.repr first_digit ++
      Nat.repr second_digit ++ Nat.repr third_digit ++ Nat.repr fourth_digit)

/-- The `while offset + 1 < len(data) and len(dtcs) < num_dtcs` loop of
`OBD2Decoder._decode_mode_03` (obd2_decoder.py lines 276-284), recursing on
the bytes from the current offset (the guard `offset + 1 < len(data)` is
"at least two bytes remain"). -/
def mode03_loop (rem : List Nat) (num_dtcs : Nat) (acc : List String) : List String :=
  match rem with
  | a :: b :: rest =>
    if acc.length < num_dtcs then
      match decode_dtc [a, b] with
      | some c => mode03_loop rest num_dtcs (if c ≠ "P0000" then acc ++ [c] else acc)
      | none => mode03_loop rest num_dtcs acc
    else acc
  | _ => acc

/-- `OBD2Decoder._decode_mode_03` (obd2_decoder.py lines 255-287), returning
the dtcs list it stores on the message. -/
def decode_mode_03 (data : List Nat) (is_response : Bool) : List String :=
  if is_response = false then []
  else if data.length < 2 then []
  else mode03_loop (data.drop 2) (byteAt data 1) []

/-- `OBD2Decoder._decode_mode_01` (obd2_decoder.py lines 200-253), returning
the pid and parameter list it stores on the message. -/
def decode_mode_01 (data : List Nat) (is_response : Bool) :
    Option Nat × List OBD2Parameter :=
  if data.length < 2 then (none, [])
  else
    let pid := byteAt data 1
    if is_response = false then (some pid, [])
    else if data.length < 3 then (some pid, [])
    else
      match pid_definitions pid with
      | none => (some pid, [])
      | some pid_def =>
        let data_bytes := (data.drop 2).take pid_def.bytes
        if data_bytes.length < pid_def.bytes then (some pid, [])
        else
          let value := pid_def.formula data_bytes
          (some pid, [{ name := pid_def.name, pid := pid, value := py_round2 value,
                        unit := pid_def.unit, raw_value := data_bytes }])

/-- `OBD2Decoder.decode_message` (obd2_decoder.py lines 156-191). -/
def decode_message (data : List Nat) : Option OBD2Message :=
  if data.length < 2 then none
  else
    let mode := byteAt data 0
    let is_response := decide (0x40 ≤ mode)
    let actual_mode := if 0x40 ≤ mode then mode - 0x40 else mode
    let base : OBD2Message :=
      { mode := actual_mode, mode_name := get_mode_name actual_mode,
        is_response := is_response }
    if actual_mode = 0x01 then
      let r := decode_mode_01 data is_response
      some { base with pid := r.1, parameters := r.2 }
    else if actual_mode = 0x03 then
      some { base with dtcs := decode_mode_03 data is_response }
    else some base

end OBD2

namespace UDS

/-- `DTCInfo` (uds_decoder.py lines 53-68). -/
structure DTCInfo where
  code : String
  status_byte : Nat
  severity : String
  description : Option String := none
  deriving DecidableEq

/-- The service-specific `decoded_data` dictionaries the UDS decoder builds:
one variant per populating site (uds_decoder.py lines 188, 238-248, 264-267).
The dict's redundant `response_length` entry is kept as a field. -/
inductive DecodedData where
  | subFunction (sub_function : Nat)
  | readData (data_identifier : Nat) (response_data : List Nat)
      (response_length : Nat) (vin : Option String)
  | testerPresent (sub_function : Nat) (suppress_positive_response : Bool)
  deriving DecidableEq

/-- `UDSMessage` (uds_decoder.py lines 71-106). -/
structure UDSMessage where
  service_id : Nat
  service_name : String
  ecu_address : Nat
  data : List Nat
  is_response : Bool
  response_code : Option Nat := none
  dtc_info : Option (List DTCInfo) := none
  data_identifier : Option Nat := none
  decoded_data : Option DecodedData := none
  deriving DecidableEq

/-- `UDSDecoder._get_service_name` over the `UDSService` enum
(uds_decoder.py lines 15-42 and 166-171). -/
def get_service_name (service_id : Nat) : String :=
  if service_id = 0x10 then "DIAGNOSTIC_SESSION_CONTROL"
  else if service_id = 0x11 then "ECU_RESET"
  else if service_id = 0x27 then "SECURITY_ACCESS"
  else if service_id = 0x28 then "COMMUNICATION_CONTROL"
  else if service_id = 0x3E then "TESTER_PRESENT"
  else if service_id = 0x83 then "ACCESS_TIMING_PARAMETER"
  else if service_id = 0x84 then "SECURED_DATA_TRANSMISSION"
  else if service_id = 0x85 then "CONTROL_DTC_SETTING"
  else if service_id = 0x86 then "RESPONSE_ON_EVENT"
  else if service_id = 0x87 then "LINK_CONTROL"
  else if service_id = 0x22 then "READ_DATA_BY_IDENTIFIER"
  else if service_id = 0x23 then "READ_MEMORY_BY_ADDRESS"
  else if service_id = 0x24 then "READ_SCALING_DATA_BY_IDENTIFIER"
  else if service_id = 0x2A then "READ_DATA_BY_PERIODIC_IDENTIFIER"
  else if service_id = 0x2C then "DYNAMICALLY_DEFINE_DATA_IDENTIFIER"
  else if service_id = 0x2E then "WRITE_DATA_BY_IDENTIFIER"
  else if service_id = 0x3D then "WRITE_MEMORY_BY_ADDRESS"
  else if service_id = 0x14 then "CLEAR_DIAGNOSTIC_INFORMATION"
  else if service_id = 0x19 then "READ_DTC_INFORMATION"
  else if service_id = 0x2F then "INPUT_OUTPUT_CONTROL_BY_IDENTIFIER"
  else if service_id = 0x31 then "ROUTINE_CONTROL"
  else if service_id = 0x34 then "REQUEST_DOWNLOAD"
  else if service_id = 0x35 then "REQUEST_UPLOAD"
  else if service_id = 0x36 then "TRANSFER_DATA"
  else if service_id = 0x37 then "REQUEST_TRANSFER_EXIT"
  else if service_id = 0x38 then "REQUEST_FILE_TRANSFER"
  else "UNKNOWN_SERVICE_" ++ pyHex service_id

/-- `UDSDecoder.DTC_PREFIXES.get(prefix_code, 'U')`
(uds_decoder.py lines 113-118 and 293). -/
def uds_dtc_letter (c : Nat) : String :=
  if c = 0 then "P" else if c = 1 then "C" else if c = 2 then "B"
  else if c = 3 then "U" else "U"

/-- `UDSDecoder._decode_dtc_code` (uds_decoder.py lines 269-295): 3-byte DTC to
string.  As in the OBD-II decoder, each 4-bit digit is rendered by a plain
f-string, i.e. in decimal (`Nat.repr`); the third byte's high nibble is
computed by the source but discarded from the returned code. -/
def decode_dtc_code (dtc_bytes : List Nat) : String :=
  if dtc_bytes.length ≠ 3 then "INVALID"
  else
    let first_byte := byteAt dtc_bytes 0
    let prefix_code := (first_byte >>> 6) &&& 0x03
    let first_digit := (first_byte >>> 4) &&& 0x03
    let second_digit := first_byte &&& 0x0F
    let third_digit := (byteAt dtc_bytes 1 >>> 4) &&& 0x0F
    let fourth_digit := byteAt dtc_bytes 1 &&& 0x0F
    let _fifth_digit := (byteAt dtc_bytes 2 >>> 4) &&& 0x0F
    uds_dtc_letter prefix_code ++ Nat.repr first_digit ++ Nat.repr second_digit ++
      Nat.repr third_digit ++ Nat.repr fourth_digit

/-- `UDSDecoder._get_dtc_severity` (uds_decoder.py lines 297-316). -/
def get_dtc_severity (status_byte : Nat) : String :=
  let severity_bits := status_byte &&& 0xE0
  if severity_bits = 0x80 then "critical"
  else if severity_bits = 0x40 then "high"
  else if severity_bits = 0x20 then "medium"
  else "low"

/-- The `while offset + 3 < len(data)` loop of
`UDSDecoder._decode_read_dtc_information` (uds_decoder.py lines 199-214),
recursing on the bytes from the current offset (the guard is "at least four
bytes remain": a 3-byte DTC plus a status byte). -/
def dtc_record_loop (rem : List Nat) (acc : List DTCInfo) : List DTCInfo :=
  match rem with
  | a :: b :: c :: status_byte :: rest =>
    dtc_record_loop rest (acc ++
      [{ code := decode_dtc_code [a, b, c], status_byte := status_byte,
         severity := get_dtc_severity status_byte }])
  | _ => acc

/-- `UDSDecoder._decode_read_dtc_information` (uds_decoder.py lines 173-217). -/
def decode_read_dtc_information (message : UDSMessage) (data : List Nat) :
    UDSMessage :=
  if data.length < 2 then message
  else
    let sub_function := byteAt data 1
    if message.is_response = false then
      { message with decoded_data := some (.subFunction sub_function) }
    else if sub_function ∈ [0x02, 0x0A, 0x0B, 0x0C, 0x0D, 0x0E] then
      let off := if 2 < data.length then 3 else 2
      { message with dtc_info := some (dtc_record_loop (data.drop off) []) }
    else message

/-- Python `bytes.decode('ascii')`, which succeeds exactly when every byte is
below 0x80. -/
def ascii_decode (l : List Nat) : String := String.mk (l.map Char.ofNat)

/-- `UDSDecoder._decode_read_data_by_identifier` (uds_decoder.py lines 219-250).
The big-endian identifier is `struct.unpack('>H', data[1:3])`; the `vin` key is
added only when the identifier is 0xF190 and the ASCII decode succeeds. -/
def decode_read_data_by_identifier (message : UDSMessage) (data : List Nat) :
    UDSMessage :=
  if data.length < 3 then message
  else
    let data_identifier := byteAt data 1 * 256 + byteAt data 2
    let m1 := { message with data_identifier := some data_identifier }
    if message.is_response && decide (3 < data.length) then
      let response_data := data.drop 3
      let vin :=
        if data_identifier = 0xF190 && response_data.all (fun b => b < 0x80)
        then some (ascii_decode response_data) else none
      let dd := DecodedData.readData data_identifier response_data
        response_data.length vin
      { m1 with decoded_data := some dd }
    else m1

/-- `UDSDecoder._decode_tester_present` (uds_decoder.py lines 252-267). -/
def decode_tester_present (message : UDSMessage) (data : List Nat) : UDSMessage :=
  if data.length < 2 then message
  else
    let sub_function := byteAt data 1
    let dd := DecodedData.testerPresent sub_function
      (decide (sub_function &&& 0x80 ≠ 0))
    { message with decoded_data := some dd }

/-- `UDSDecoder.decode_message` (uds_decoder.py lines 124-164). -/
def decode_message (data : List Nat) (ecu_address : Nat) : Option UDSMessage :=
  match data with
  | [] => none
  | b :: _ =>
    let is_response := decide (0x40 ≤ b)
    let actual_service_id := if 0x40 ≤ b then b - 0x40 else b
    let message : UDSMessage :=
      { service_id := actual_service_id,
        service_name := get_service_name actual_service_id,
        ecu_address := ecu_address, data := data, is_response := is_response }
    if actual_service_id = 0x19 then some (decode_read_dtc_information message data)
    else if actual_service_id = 0x22 then
      some (decode_read_data_by_identifier message data)
    else if actual_service_id = 0x3E then some (decode_tester_present message data)
    else some message

end UDS

namespace Validator

/-- `ValidationResult` (uds_validator.py lines 13-32), with the
`__post_init__` default of an empty warnings list. -/
structure ValidationResult where
  is_valid : Bool
  error_code : Option String := none
  error_message : Option String := none
  warnings : List String := []
  deriving DecidableEq

/-- `UDSValidator.VALID_SERVICE_IDS` (uds_validator.py lines 39-43). -/
def valid_service_ids : List Nat :=
  [0x10, 0x11, 0x14, 0x19, 0x22, 0x23, 0x24, 0x27, 0x28, 0x2A,
   0x2C, 0x2E, 0x2F, 0x31, 0x34, 0x35, 0x36, 0x37, 0x38, 0x3D,
   0x3E, 0x83, 0x84, 0x85, 0x86, 0x87]

/-- `UDSValidator.MIN_MESSAGE_LENGTHS.get(service_id, 1)`
(uds_validator.py lines 46-57 and 130). -/
def min_message_length (service_id : Nat) : Nat :=
  if service_id = 0x10 then 2
  else if service_id = 0x11 then 2
  else if service_id = 0x14 then 4
  else if service_id = 0x19 then 2
  else if service_id = 0x22 then 3
  else if service_id = 0x23 then 4
  else if service_id = 0x27 then 2
  else if service_id = 0x2E then 4
  else if service_id = 0x3E then 2
  else if service_id = 0x31 then 4
  else 1

/-- `UDSValidator.NEGATIVE_RESPONSE_CODES` (uds_validator.py lines 60-83). -/
def negative_response_codes (code : Nat) : Option String :=
  if code = 0x10 then some "General Reject"
  else if code = 0x11 then some "Service Not Supported"
  else if code = 0x12 then some "Sub-Function Not Supported"
  else if code = 0x13 then some "Incorrect Message Length Or Invalid Format"
  else if code = 0x14 then some "Response Too Long"
  else if code = 0x21 then some "Busy Repeat Request"
  else if code = 0x22 then some "Conditions Not Correct"
  else if code = 0x24 then some "Request Sequence Error"
  else if code = 0x25 then some "No Response From Sub-Net Component"
  else if code = 0x26 then some "Failure Prevents Execution Of Requested Action"
  else if code = 0x31 then some "Request Out Of Range"
  else if code = 0x33 then some "Security Access Denied"
  else if code = 0x35 then some "Invalid Key"
  else if code = 0x36 then some "Exceed Number Of Attempts"
  else if code = 0x37 then some "Required Time Delay Not Expired"
  else if code = 0x70 then some "Upload Download Not Accepted"
  else if code = 0x71 then some "Transfer Data Suspended"
  else if code = 0x72 then some "General Programming Failure"
  else if code = 0x73 then some "Wrong Block Sequence Counter"
  else if code = 0x78 then some "Request Correctly Received - Response Pending"
  else if code = 0x7E then some "Sub-Function Not Supported In Active Session"
  else if code = 0x7F then some "Service Not Supported In Active Session"
  else none

/-- `UDSValidator._validate_negative_response` (uds_validator.py lines 154-187). -/
def validate_negative_response (data : List Nat) : ValidationResult :=
  if data.length < 3 then
    { is_valid := false, error_code := some "INVALID_NEGATIVE_RESPONSE",
      error_message := some "Negative response too short" }
  else
    let response_code := byteAt data 2
    let response_desc := (negative_response_codes response_code).getD
      ("Unknown response code: " ++ pyHex response_code)
    { is_valid := true, warnings := ["Negative response: " ++ response_desc] }

/-- `UDSValidator._validate_service_specific` (uds_validator.py lines 206-275). -/
def validate_service_specific (service_id : Nat) (data : List Nat)
    (is_response : Bool) : ValidationResult :=
  if service_id = 0x19 then
    if data.length < 2 then
      { is_valid := false, error_code := some "INVALID_DTC_REQUEST",
        error_message := some "Read DTC Information requires sub-function" }
    else
      let sub_function := byteAt data 1
      if sub_function ∈ [0x01, 0x02, 0x03, 0x04, 0x06, 0x0A, 0x0B, 0x0C, 0x0D, 0x0E]
      then { is_valid := true }
      else { is_valid := true,
             warnings := ["Unknown DTC sub-function: " ++ pyHex sub_function] }
  else if service_id = 0x22 then
    if data.length < 3 then
      { is_valid := false, error_code := some "INVALID_READ_DATA",
        error_message := some "Read Data By Identifier requires data identifier" }
    else if is_response = false ∧ data.length ≠ 3 then
      { is_valid := true,
        warnings := ["Unexpected message length for Read Data By Identifier request"] }
    else { is_valid := true }
  else if service_id = 0x3E then
    if data.length < 2 then
      { is_valid := false, error_code := some "INVALID_TESTER_PRESENT",
        error_message := some "Tester Present requires sub-function" }
    else
      let sub_function := byteAt data 1 &&& 0x7F
      if sub_function ≠ 0x00 then
        { is_valid := true,
          warnings := ["Non-standard Tester Present sub-function: " ++ pyHex sub_function] }
      else { is_valid := true }
  else if service_id = 0x2E then
    if data.length < 4 then
      { is_valid := false, error_code := some "INVALID_WRITE_DATA",
        error_message := some "Write Data By Identifier requires data identifier and data" }
    else { is_valid := true }
  else { is_valid := true }

/-- `UDSValidator.validate_message` (uds_validator.py lines 89-152).  The
checksum hook returns `None` in the source, so no checksum warning is ever
appended to the service-specific result. -/
def validate_message (data : List Nat) (ecu_address : Nat) : ValidationResult :=
  match data with
  | [] =>
    { is_valid := false, error_code := some "EMPTY_MESSAGE",
      error_message := some "Message data is empty" }
  | b :: _ =>
    if b = 0x7F then validate_negative_response data
    else
      let actual_service_id := if 0x40 ≤ b then b - 0x40 else b
      if actual_service_id ∉ valid_service_ids then
        { is_valid := false, error_code := some "INVALID_SERVICE_ID",
          error_message := some ("Unknown service ID: " ++ pyHex b) }
      else
        let min_length := min_message_length actual_service_id
        if data.length < min_length then
          { is_valid := false, error_code := some "INVALID_LENGTH",
            error_message := some ("Message too short: " ++ Nat.repr data.length ++
              " bytes (minimum: " ++ Nat.repr min_length ++ ")") }
        else validate_service_specific actual_service_id data (decide (0x40 ≤ b))

end Validator

namespace CanBuf

/-- `CircularBuffer` (can_interface.py lines 39-77): a `deque(maxlen=max_size)`
plus the received/dropped counters.  Frames are a type parameter (the source
stores `CANFrame` objects). -/
structure CircularBuffer (α : Type) where
  max_size : Nat
  buffer : List α
  total_received : Nat
  total_dropped : Nat
  deriving DecidableEq

/-- `CircularBuffer.__init__` (can_interface.py lines 42-46). -/
def CircularBuffer.init (α : Type) (max_size : Nat) : CircularBuffer α :=
  { max_size := max_size, buffer := [], total_received := 0, total_dropped := 0 }

/-- `CircularBuffer.add` (can_interface.py lines 48-53): the dropped counter is
bumped when the buffer is already full, and the `deque(maxlen=n)` append keeps
the newest `max_size` elements (`(l ++ [x]).drop (l.length + 1 - n)`). -/
def CircularBuffer.add (b : CircularBuffer α) (frame : α) : CircularBuffer α :=
  { b with
    buffer := (b.buffer ++ [frame]).drop (b.buffer.length + 1 - b.max_size),
    total_dropped :=
      if b.max_size ≤ b.buffer.length then b.total_dropped + 1 else b.total_dropped,
    total_received := b.total_received + 1 }

/-- `CircularBuffer.get_all` (can_interface.py lines 55-59): return the frames
and clear the buffer. -/
def CircularBuffer.get_all (b : CircularBuffer α) : List α × CircularBuffer α :=
  (b.buffer, { b with buffer := [] })

/-- One client operation against the buffer: `add` (push) or `get_all` (drain). -/
inductive BufOp (α : Type) where
  | push (frame : α)
  | drain
  deriving DecidableEq

/-- A buffer paired with the ghost count of frames handed out by `get_all`
("delivered"), which the source does not store but the spec's conservation
invariant refers to. -/
structure BufSim (α : Type) where
  buf : CircularBuffer α
  delivered : Nat
  deriving DecidableEq

/-- Run one operation: push calls `add`, drain calls `get_all` and credits the
returned frames to the ghost delivered counter. -/
def bufStep (s : BufSim α) : BufOp α → BufSim α
  | .push x => { s with buf := s.buf.add x }
  | .drain =>
    let r := s.buf.get_all
    { buf := r.2, delivered := s.delivered + r.1.length }

/-- Run a sequence of operations against a fresh buffer of capacity `n`. -/
def bufRun (α : Type) (n : Nat) (ops : List (BufOp α)) : BufSim α :=
  ops.foldl bufStep { buf := CircularBuffer.init α n, delivered := 0 }

end CanBuf

namespace Poller

/-- `PIDConfig` (obd2_poller.py lines 15-30), with the dataclass defaults. -/
structure PIDConfig where
  pid : Nat
  name : String
  interval_ms : Int
  enabled : Bool := true
  last_poll_time : ℚ := 0
  deriving DecidableEq

/-- One entry of the `config["obd2"]["pids"]` list consumed by
`OBD2Poller._load_pid_configs` (obd2_poller.py lines 54-72).  Fields are
optional, mirroring `dict.get`; `pid` carries the value of
`int(pid_config.get("pid", "0x00"), 16)`, the hex-string parse being external
to the embedding. -/
structure ConfigPidEntry where
  pid : Option Nat := none
  name : Option String := none
  interval_ms : Option Int := none
  enabled : Option Bool := none

/-- `OBD2Poller._load_pid_configs` (obd2_poller.py lines 54-72): each entry is
turned into a `PIDConfig` with the `dict.get` defaults and no bound check on
the interval. -/
def load_pid_configs (entries : List ConfigPidEntry) : List PIDConfig :=
  entries.map (fun e =>
    let pid_value := e.pid.getD 0x00
    { pid := pid_value,
      name := e.name.getD ("pid_" ++ pyHex pid_value),
      interval_ms := e.interval_ms.getD 1000,
      enabled := e.enabled.getD true })

/-- The `for pid_config in self.pid_configs` search-and-update loop of
`OBD2Poller.set_interval` (obd2_poller.py lines 181-186): the first entry with
a matching pid is updated and `True` returned. -/
def set_interval_loop (cfgs : List PIDConfig) (pid : Nat) (interval_ms : Int) :
    Bool × List PIDConfig :=
  match cfgs with
  | [] => (false, [])
  | c :: rest =>
    if c.pid = pid then (true, { c with interval_ms := interval_ms } :: rest)
    else
      let r := set_interval_loop rest pid interval_ms
      (r.1, c :: r.2)

/-- `OBD2Poller.set_interval` (obd2_poller.py lines 166-186): values outside
[100, 5000] are rejected with no state change. -/
def set_interval (cfgs : List PIDConfig) (pid : Nat) (interval_ms : Int) :
    Bool × List PIDConfig :=
  if interval_ms < 100 ∨ 5000 < interval_ms then (false, cfgs)
  else set_interval_loop cfgs pid interval_ms

/-- `OBD2Poller.add_pid` (obd2_poller.py lines 188-211): no-op when the pid
already exists, otherwise appends a new enabled entry carrying the given
interval unvalidated. -/
def add_pid (cfgs : List PIDConfig) (pid : Nat) (name : String)
    (interval_ms : Int) : List PIDConfig :=
  if cfgs.any (fun c => c.pid == pid) then cfgs
  else cfgs ++ [{ pid := pid, name := name, interval_ms := interval_ms,
                  enabled := true, last_poll_time := 0 }]

end Poller

namespace Spool

/-- `LocalBuffer.MAX_BUFFER_SIZE` (local_buffer.py line 45): 1 GiB. -/
def MAX_BUFFER_SIZE : Nat := 1024 * 1024 * 1024

/-- `LocalBuffer.MAX_BATCH_SIZE` (local_buffer.py line 48): 256 KiB. -/
def MAX_BATCH_SIZE : Nat := 256 * 1024

/-- `LocalBuffer.BATCH_TIME_WINDOW` (local_buffer.py line 51): 5 seconds. -/
def BATCH_TIME_WINDOW : ℚ := 5

/-- One row of the `telemetry_buffer` table (local_buffer.py lines 82-91).
`size_bytes` is what `_store_batch` inserts: the length of the gzip-compressed
blob.  `uncompressed_size` is a ghost field recording `len(batch_bytes)`, the
uncompressed JSON size the source computes and logs (local_buffer.py lines
143-144 and 158-161) but does not store; no code path reads it.  Rows are kept
in insertion order, which coincides with `ORDER BY timestamp ASC` because
`time.time()` timestamps are nondecreasing. -/
structure SpoolRow where
  id : Nat
  timestamp : ℚ
  batch_data : List Nat
  size_bytes : Nat
  uncompressed_size : Nat
  transmitted : Bool
  deriving DecidableEq

/-- The external codecs `_store_batch` and `decompress_batch` call out to
(local_buffer.py lines 116-169 and 264-284): `compress` is
`gzip.compress(json.dumps(batch).encode('utf-8'))`, `decompress_parse` is
`json.loads(gzip.decompress(blob))` with the catch-all returning `[]`,
`msg_json_len` is `len(json.dumps(message).encode('utf-8'))`, and
`batch_json_len` is `len(json.dumps(batch).encode('utf-8'))`. -/
structure SpoolCodec (μ : Type) where
  compress : List μ → List Nat
  decompress_parse : List Nat → List μ
  msg_json_len : μ → Nat
  batch_json_len : List μ → Nat

/-- The `LocalBuffer` state (local_buffer.py lines 53-72): the stored rows,
the `AUTOINCREMENT` cursor, the in-memory batch with its running size and
start time, and the ghost list of `logger.warning` messages emitted by
`_check_buffer_size`. -/
structure LocalBuffer (μ : Type) where
  rows : List SpoolRow
  next_id : Nat
  current_batch : List μ
  current_batch_size : Nat
  batch_start_time : ℚ
  warnings : List String
  deriving DecidableEq

/-- `LocalBuffer.__init__` on a fresh database (local_buffer.py lines 53-72):
no rows, first `AUTOINCREMENT` id 1, empty batch started now. -/
def init_buffer (μ : Type) (now : ℚ) : LocalBuffer μ :=
  { rows := [], next_id := 1, current_batch := [], current_batch_size := 0,
    batch_start_time := now, warnings := [] }

/-- The `logger.warning` message of `_check_buffer_size`
(local_buffer.py line 213). -/
def buffer_warning (deleted : Nat) : String :=
  "Buffer size exceeded, removed " ++ Nat.repr deleted ++ " old batches"

/-- `LocalBuffer._check_buffer_size` (local_buffer.py lines 171-213), returning
the surviving rows and the warning log.  The first DELETE removes the oldest
`lim` transmitted rows where `lim` is the inner subquery
`COUNT(*) WHERE transmitted = 1 AND SUM(size_bytes) > cap` — i.e. every
transmitted row, since the sum condition already holds on this branch.  When
that deletes nothing, the second DELETE removes the oldest 10 rows outright. -/
def check_buffer_size (rows : List SpoolRow) : List SpoolRow × List String :=
  let total_size := (rows.map (fun r => r.size_bytes)).sum
  if MAX_BUFFER_SIZE < total_size then
    let _bytes_to_remove := total_size - MAX_BUFFER_SIZE
    let lim := (rows.filter
      (fun r => r.transmitted && decide (MAX_BUFFER_SIZE < total_size))).length
    let delete_ids := ((rows.filter (fun r => r.transmitted)).take lim).map
      (fun r => r.id)
    let rows1 := rows.filter (fun r => !delete_ids.contains r.id)
    let deleted := rows.length - rows1.length
    if deleted = 0 then
      let delete_ids2 := (rows.take 10).map (fun r => r.id)
      let rows2 := rows.filter (fun r => !delete_ids2.contains r.id)
      (rows2, [buffer_warning (rows.length - rows2.length)])
    else (rows1, [buffer_warning deleted])
  else (rows, [])

/-- `LocalBuffer._store_batch` (local_buffer.py lines 137-169): serialise and
compress the in-memory batch, insert a `transmitted=0` row, reset the batch,
then run `_check_buffer_size`. -/
def store_batch (c : SpoolCodec μ) (now : ℚ) (s : LocalBuffer μ) : LocalBuffer μ :=
  if s.current_batch.isEmpty then s
  else
    let compressed_data := c.compress s.current_batch
    let row : SpoolRow :=
      { id := s.next_id, timestamp := now, batch_data := compressed_data,
        size_bytes := compressed_data.length,
        uncompressed_size := c.batch_json_len s.current_batch,
        transmitted := false }
    let checked := check_buffer_size (s.rows ++ [row])
    { rows := checked.1, next_id := s.next_id + 1, current_batch := [],
      current_batch_size := 0, batch_start_time := now,
      warnings := s.warnings ++ checked.2 }

/-- `LocalBuffer.add_message` (local_buffer.py lines 116-135): append to the
in-memory batch, then store it when its size reaches 256 KiB or its age
reaches 5 s. -/
def add_message (c : SpoolCodec μ) (now : ℚ) (s : LocalBuffer μ) (message : μ) :
    LocalBuffer μ :=
  let message_size := c.msg_json_len message
  let s1 := { s with current_batch := s.current_batch ++ [message],
                     current_batch_size := s.current_batch_size + message_size }
  if MAX_BATCH_SIZE ≤ s1.current_batch_size ∨
     BATCH_TIME_WINDOW ≤ now - s1.batch_start_time
  then store_batch c now s1 else s1

/-- `LocalBuffer.flush` (local_buffer.py lines 324-327). -/
def flush (c : SpoolCodec μ) (now : ℚ) (s : LocalBuffer μ) : LocalBuffer μ :=
  if s.current_batch.isEmpty then s else store_batch c now s

/-- `LocalBuffer.get_pending_batches` (local_buffer.py lines 215-245):
`WHERE transmitted = 0 ORDER BY timestamp ASC LIMIT limit`. -/
def get_pending_batches (s : LocalBuffer μ) (limit : Nat) : List SpoolRow :=
  (s.rows.filter (fun r => !r.transmitted)).take limit

/-- `LocalBuffer.mark_transmitted` (local_buffer.py lines 247-262). -/
def mark_transmitted (s : LocalBuffer μ) (batch_id : Nat) : LocalBuffer μ :=
  let updated := s.rows.map
    (fun r => if r.id = batch_id then { r with transmitted := true } else r)
  { s with rows := updated }

/-- `LocalBuffer.decompress_batch` (local_buffer.py lines 264-284). -/
def decompress_batch (c : SpoolCodec μ) (batch : SpoolRow) : List μ :=
  c.decompress_parse batch.batch_data

end Spool

/-- Spec-side predicate (not from the source): the DTC code shape
`[PCBU][0-3][0-9A-F][0-9A-F][0-9A-F]` required by the specification, stated on
the five characters of the string. -/
def is_spec_hex_digit (c : Char) : Bool :=
  (decide ('0' ≤ c) && decide (c ≤ '9')) || (decide ('A' ≤ c) && decide (c ≤ 'F'))

/-- Spec-side predicate (not from the source): a string matches the spec's DTC
regex `^[PCBU][0-3][0-9A-F]{3}$`. -/
def dtc_code_format_ok (s : String) : Bool :=
  match s.data with
  | [p, d1, d2, d3, d4] =>
    ['P', 'C', 'B', 'U'].contains p &&
    (decide ('0' ≤ d1) && decide (d1 ≤ '3')) &&
    is_spec_hex_digit d2 && is_spec_hex_digit d3 && is_spec_hex_digit d4
  | _ => false

/-- A concrete codec for witnesses: messages are naturals and the serialised
batch is the message list itself, so the gzip/JSON round trip is the identity
and every message serialises to one byte. -/
def idCodec : Spool.SpoolCodec Nat :=
  { compress := fun l => l, decompress_parse := fun l => l,
    msg_json_len := fun _ => 1, batch_json_len := fun l => l.length }

/-- A concrete codec exhibiting gzip compression: the batch serialises to two
gigabytes of JSON (`batch_json_len`) while the compressed blob is a single
byte. -/
def gzCodec : Spool.SpoolCodec Nat :=
  { compress := fun _ => [0], decompress_parse := fun _ => [],
    msg_json_len := fun _ => 0, batch_json_len := fun _ => 2000000000 }

/-! ## Claim theorems -/

/-- Claim C1 (code_bug evidence): the decoders do not keep DTC codes inside
`^[PCBU][0-3][0-9A-F]{3}$`.  On OBD-II DTC bytes `0A BC` (and the UDS record
`0A BC DE` with status 0) both decoders render the nibbles 10, 11, 12 in
decimal and emit the 8-character string "P0101112", which fails the spec's
format, whereas the hex rendering "P0ABC" would satisfy it. -/
theorem c1_dtc_format_violated :
    OBD2.decode_message [0x43, 0x01, 0x0A, 0xBC] =
      some { mode := 0x03, mode_name := "SHOW_STORED_DTCS", dtcs := ["P0101112"],
             is_response := true } ∧
    (UDS.decode_message [0x59, 0x02, 0xFF, 0x0A, 0xBC, 0xDE, 0x00] 0x7E0).map
        (fun m => m.dtc_info) =
      some (some [⟨"P0101112", 0x00, "low", none⟩]) ∧
    dtc_code_format_ok "P0101112" = false ∧
    dtc_code_format_ok "P0ABC" = true := by
  decide

/-- Claim C2 (counterexample): decoding `59 02 FF 01 03 01 08 01 04 20 48` at
ECU 0x7E0 does not yield dtc_info codes "P0301"/"P0420"; under the source's
byte layout the records `01 03 01` and `01 04 20` decode to "P0103" and
"P0104". -/
theorem c2_counterexample :
    (UDS.decode_message [0x59,0x02,0xFF,0x01,0x03,0x01,0x08,0x01,0x04,0x20,0x48]
        0x7E0).map (fun m => m.dtc_info) =
      some (some [⟨"P0103", 0x08, "low", none⟩, ⟨"P0104", 0x48, "high", none⟩]) ∧
    ¬ ((UDS.decode_message [0x59,0x02,0xFF,0x01,0x03,0x01,0x08,0x01,0x04,0x20,0x48]
        0x7E0).map (fun m => m.dtc_info) =
      some (some [⟨"P0301", 0x08, "low", none⟩, ⟨"P0420", 0x48, "high", none⟩])) := by
  decide

/-- Claim C2 (amended): decoding the UDS payload
`59 02 FF 01 03 01 08 01 04 20 48` at ECU address 0x7E0 yields a UDS message
whose dtc_info list is exactly [{code "P0103", status 0x08, severity "low"},
{code "P0104", status 0x48, severity "high"}]. -/
theorem c2_read_dtc_information_decode :
    UDS.decode_message [0x59,0x02,0xFF,0x01,0x03,0x01,0x08,0x01,0x04,0x20,0x48]
      0x7E0 =
    some { service_id := 0x19, service_name := "READ_DTC_INFORMATION",
           ecu_address := 0x7E0,
           data := [0x59,0x02,0xFF,0x01,0x03,0x01,0x08,0x01,0x04,0x20,0x48],
           is_response := true,
           dtc_info := some [⟨"P0103", 0x08, "low", none⟩,
                             ⟨"P0104", 0x48, "high", none⟩] } := by
  decide

/-- Claim C9 (counterexample): the decoder attaches a `vin` field whenever the
payload of a 0xF190 response decodes as ASCII, with no 17-character check:
the 1-byte payload `41` already yields vin "A". -/
theorem c9_counterexample :
    UDS.decode_message [0x62, 0xF1, 0x90, 0x41] 0x7E0 =
      some { service_id := 0x22, service_name := "READ_DATA_BY_IDENTIFIER",
             ecu_address := 0x7E0, data := [0x62, 0xF1, 0x90, 0x41],
             is_response := true, data_identifier := some 0xF190,
             decoded_data := some (.readData 0xF190 [0x41] 1 (some "A")) } ∧
    ([0x41] : List Nat).length ≠ 17 := by
  decide

/-- Claim C9 (amended): for every Read Data By Identifier response
`62 F1 90 <payload>` with nonempty payload, the decoded message carries
data_identifier 0xF190 and a `readData` record whose `vin` field is the
payload read as ASCII exactly when every payload byte is below 0x80 — with no
17-character requirement; the concrete 17-character VIN example decodes as the
spec states. -/
theorem c9_vin_decode :
    (∀ (rest : List Nat) (ecu_address : Nat), rest ≠ [] →
      UDS.decode_message (0x62 :: 0xF1 :: 0x90 :: rest) ecu_address =
        some { service_id := 0x22, service_name := "READ_DATA_BY_IDENTIFIER",
               ecu_address := ecu_address, data := 0x62 :: 0xF1 :: 0x90 :: rest,
               is_response := true, data_identifier := some 0xF190,
               decoded_data := some (.readData 0xF190 rest rest.length
                 (if rest.all (fun b => b < 0x80) then some (UDS.ascii_decode rest)
                  else none)) }) ∧
    UDS.decode_message [0x62,0xF1,0x90,0x31,0x48,0x47,0x42,0x48,0x34,0x31,0x4A,
        0x58,0x4D,0x4E,0x31,0x30,0x39,0x31,0x38,0x36] 0x7E0 =
      some { service_id := 0x22, service_name := "READ_DATA_BY_IDENTIFIER",
             ecu_address := 0x7E0,
             data := [0x62,0xF1,0x90,0x31,0x48,0x47,0x42,0x48,0x34,0x31,0x4A,
                      0x58,0x4D,0x4E,0x31,0x30,0x39,0x31,0x38,0x36],
             is_response := true, data_identifier := some 0xF190,
             decoded_data := some (.readData 0xF190
               [0x31,0x48,0x47,0x42,0x48,0x34,0x31,0x4A,0x58,0x4D,0x4E,0x31,
                0x30,0x39,0x31,0x38,0x36] 17 (some "1HGBH41JXMN109186")) } := by
  constructor
  · intro rest ecu_address hne
    cases rest with
    | nil => exact absurd rfl hne
    | cons r rs =>
      simp only [UDS.decode_message, UDS.decode_read_data_by_identifier, byteAt,
        UDS.get_service_name, List.length_cons, List.getD, List.get?, List.drop,
        List.all_cons]
      norm_num
  · decide

/-- Claim C9 (witness): the amended statement applied to the one-byte ASCII
payload `41` at ECU 0x7E0. -/
theorem c9_vin_decode_witness :
    UDS.decode_message (0x62 :: 0xF1 :: 0x90 :: [0x41]) 0x7E0 =
      some { service_id := 0x22, service_name := "READ_DATA_BY_IDENTIFIER",
             ecu_address := 0x7E0, data := 0x62 :: 0xF1 :: 0x90 :: [0x41],
             is_response := true, data_identifier := some 0xF190,
             decoded_data := some (.readData 0xF190 [0x41] ([0x41] : List Nat).length
               (if ([0x41] : List Nat).all (fun b => b < 0x80)
                then some (UDS.ascii_decode [0x41]) else none)) } :=
  c9_vin_decode.1 [0x41] 0x7E0 (by decide)

/-- Claim C10: `UDS.decode_message` fails (returns none) exactly on the empty
payload; every nonempty payload yields a message, and a payload starting with
0x7F is decoded as the response form of service 0x3F (named
UNKNOWN_SERVICE_0x3f), not through a dedicated negative-response path. -/
theorem c10_decode_total :
    (∀ (data : List Nat) (ecu_address : Nat),
      UDS.decode_message data ecu_address = none ↔ data = []) ∧
    (∀ (rest : List Nat) (ecu_address : Nat), ∃ m,
      UDS.decode_message (0x7F :: rest) ecu_address = some m ∧
      m.is_response = true ∧ m.service_id = 0x3F ∧
      m.service_name = "UNKNOWN_SERVICE_0x3f") := by
  constructor
  · intro data ecu_address
    cases data with
    | nil => simp [UDS.decode_message]
    | cons b rest =>
      simp only [UDS.decode_message, List.cons_ne_nil, iff_false]
      repeat' split
      all_goals simp
  · intro rest ecu_address
    refine ⟨_, rfl, ?_⟩
    norm_num [UDS.decode_message, UDS.decode_read_dtc_information,
      UDS.decode_read_data_by_identifier, UDS.decode_tester_present,
      UDS.get_service_name]
    decide

/-- Claim C10 (witness): the totality statement applied to the negative
response `7F 22 11` at ECU 0x7E0. -/
theorem c10_decode_total_witness :
    (UDS.decode_message [0x7F, 0x22, 0x11] 0x7E0 = none ↔
      ([0x7F, 0x22, 0x11] : List Nat) = []) ∧
    (∃ m, UDS.decode_message (0x7F :: [0x22, 0x11]) 0x7E0 = some m ∧
      m.is_response = true ∧ m.service_id = 0x3F ∧
      m.service_name = "UNKNOWN_SERVICE_0x3f") :=
  ⟨c10_decode_total.1 [0x7F, 0x22, 0x11] 0x7E0,
   c10_decode_total.2 [0x22, 0x11] 0x7E0⟩

/-- Claim C7: for every nonempty payload whose first byte is not the negative
response sentinel 0x7F and whose service id, after the response-bit strip the
source applies, is not a known service id, the validator rejects with
INVALID_SERVICE_ID; in particular `FF 00` is rejected that way. -/
theorem c7_invalid_service_id :
    (∀ (b : Nat) (rest : List Nat) (ecu_address : Nat), b ≠ 0x7F →
      (if 0x40 ≤ b then b - 0x40 else b) ∉ Validator.valid_service_ids →
      Validator.validate_message (b :: rest) ecu_address =
        { is_valid := false, error_code := some "INVALID_SERVICE_ID",
          error_message := some ("Unknown service ID: " ++ pyHex b) }) ∧
    Validator.validate_message [0xFF, 0x00] 0x7E0 =
      { is_valid := false, error_code := some "INVALID_SERVICE_ID",
        error_message := some "Unknown service ID: 0xff" } := by
  constructor
  · intro b rest ecu_address hb hmem
    simp only [Validator.validate_message]
    rw [if_neg hb, if_pos hmem]
  · decide

/-- Claim C7 (witness): the general rejection applied to the payload `FF 00`
at ECU 0x7E0, whose stripped service id 0xBF is unknown. -/
theorem c7_invalid_service_id_witness :
    Validator.validate_message (0xFF :: [0x00]) 0x7E0 =
      { is_valid := false, error_code := some "INVALID_SERVICE_ID",
        error_message := some ("Unknown service ID: " ++ pyHex 0xFF) } :=
  c7_invalid_service_id.1 0xFF [0x00] 0x7E0 (by decide) (by decide)

/-- Helper: one `bufStep` preserves the conservation invariant
received = delivered + dropped + held together with the capacity bound. -/
theorem canbuf_step_inv (s : CanBuf.BufSim α) (op : CanBuf.BufOp α)
    (h1 : s.buf.total_received =
      s.delivered + s.buf.total_dropped + s.buf.buffer.length)
    (h2 : s.buf.buffer.length ≤ s.buf.max_size) :
    (CanBuf.bufStep s op).buf.total_received =
      (CanBuf.bufStep s op).delivered + (CanBuf.bufStep s op).buf.total_dropped +
      (CanBuf.bufStep s op).buf.buffer.length ∧
    (CanBuf.bufStep s op).buf.buffer.length ≤ (CanBuf.bufStep s op).buf.max_size := by
  cases op with
  | push x =>
    constructor <;>
      simp only [CanBuf.bufStep, CanBuf.CircularBuffer.add, List.length_drop,
        List.length_append, List.length_cons, List.length_nil] <;>
      (try split) <;> omega
  | drain =>
    constructor <;> simp [CanBuf.bufStep, CanBuf.CircularBuffer.get_all] <;> omega

/-- Helper: the conservation invariant holds after any operation sequence. -/
theorem canbuf_foldl_inv (ops : List (CanBuf.BufOp α)) :
    ∀ s : CanBuf.BufSim α,
      s.buf.total_received =
        s.delivered + s.buf.total_dropped + s.buf.buffer.length →
      s.buf.buffer.length ≤ s.buf.max_size →
      (ops.foldl CanBuf.bufStep s).buf.total_received =
        (ops.foldl CanBuf.bufStep s).delivered +
        (ops.foldl CanBuf.bufStep s).buf.total_dropped +
        (ops.foldl CanBuf.bufStep s).buf.buffer.length ∧
      (ops.foldl CanBuf.bufStep s).buf.buffer.length ≤
        (ops.foldl CanBuf.bufStep s).buf.max_size := by
  induction ops with
  | nil => intro s h1 h2; exact ⟨h1, h2⟩
  | cons op rest ih =>
    intro s h1 h2
    have h' := canbuf_step_inv s op h1 h2
    exact ih _ h'.1 h'.2

/-- Claim C4: for every sequence of push and drain operations against a fresh
Ingest Buffer, received = delivered + dropped + currently_held afterwards; and
pushing frames 1..15 into a capacity-10 buffer gives received 15, dropped 5,
current size 10, with drain returning the 10 newest frames in arrival order. -/
theorem c4_buffer_conservation :
    (∀ (α : Type) (n : Nat) (ops : List (CanBuf.BufOp α)),
      (CanBuf.bufRun α n ops).buf.total_received =
        (CanBuf.bufRun α n ops).delivered +
        (CanBuf.bufRun α n ops).buf.total_dropped +
        (CanBuf.bufRun α n ops).buf.buffer.length) ∧
    ((CanBuf.bufRun Nat 10
        ((List.range 15).map (fun i => CanBuf.BufOp.push (i+1)))).buf.total_received
        = 15 ∧
     (CanBuf.bufRun Nat 10
        ((List.range 15).map (fun i => CanBuf.BufOp.push (i+1)))).buf.total_dropped
        = 5 ∧
     (CanBuf.bufRun Nat 10
        ((List.range 15).map (fun i => CanBuf.BufOp.push (i+1)))).buf.buffer.length
        = 10 ∧
     (CanBuf.bufRun Nat 10
        ((List.range 15).map (fun i => CanBuf.BufOp.push (i+1)))).buf.get_all.1
        = [6,7,8,9,10,11,12,13,14,15]) := by
  constructor
  · intro α n ops
    exact (canbuf_foldl_inv ops _ (by simp [CanBuf.CircularBuffer.init])
      (by simp [CanBuf.CircularBuffer.init])).1
  · decide

/-- Claim C8 (counterexample): `add_pid` applies no bound check, so adding a
PID with a 50 ms interval creates a schedule entry whose interval is outside
[100, 5000]. -/
theorem c8_counterexample :
    (Poller.add_pid [] 0x11 "throttle_position" 50).all
      (fun c => 100 ≤ c.interval_ms && c.interval_ms ≤ 5000) = false := by
  decide

/-- Claim C8 (amended): `set_interval` rejects every value outside [100, 5000],
returning failure and leaving the schedule unchanged; but `add_pid` and
configuration load store the caller-supplied interval with no bound check, so
entries outside the bounds are possible. -/
theorem c8_interval_bounds :
    (∀ (cfgs : List Poller.PIDConfig) (pid : Nat) (interval_ms : Int),
      interval_ms < 100 ∨ 5000 < interval_ms →
      Poller.set_interval cfgs pid interval_ms = (false, cfgs)) ∧
    (∀ (cfgs : List Poller.PIDConfig) (pid : Nat) (name : String)
        (interval_ms : Int),
      cfgs.any (fun c => c.pid == pid) = false →
      Poller.add_pid cfgs pid name interval_ms =
        cfgs ++ [{ pid := pid, name := name, interval_ms := interval_ms,
                   enabled := true, last_poll_time := 0 }]) ∧
    (∀ entries : List Poller.ConfigPidEntry,
      (Poller.load_pid_configs entries).map (fun c => c.interval_ms) =
        entries.map (fun e => e.interval_ms.getD 1000)) := by
  refine ⟨?_, ?_, ?_⟩
  · intro cfgs pid interval_ms h
    simp [Poller.set_interval, h]
  · intro cfgs pid name interval_ms h
    simp [Poller.add_pid, h]
  · intro entries
    simp [Poller.load_pid_configs, List.map_map, Function.comp]

/-- Claim C8 (witness): `set_interval` with the out-of-range value 50 on the
empty schedule fails and changes nothing. -/
theorem c8_interval_bounds_witness :
    Poller.set_interval [] 0x11 50 = (false, []) :=
  c8_interval_bounds.1 [] 0x11 50 (Or.inl (by decide))

/-- Helper: rounding an integer-valued rational is the identity. -/
theorem round_half_even_intCast (n : ℤ) : round_half_even (n : ℚ) = n := by
  simp only [round_half_even, Int.floor_intCast, sub_self]
  norm_num

/-- Helper: `py_round2` fixes integer-valued rationals. -/
theorem py_round2_intCast (n : ℤ) : py_round2 (n : ℚ) = n := by
  have h : ((n : ℚ) * 100) = ((n * 100 : ℤ) : ℚ) := by push_cast; ring
  rw [py_round2, h, round_half_even_intCast]
  push_cast
  ring

/-- Helper: every parameter `decode_mode_01` emits satisfies the rounding law
of its PID's table entry. -/
theorem mem_decode_mode_01 (data : List Nat) (b : Bool) (p : OBD2.OBD2Parameter)
    (hmem : p ∈ (OBD2.decode_mode_01 data b).2) :
    ∃ d, OBD2.pid_definitions p.pid = some d ∧
      p.value = py_round2 (d.formula p.raw_value) := by
  simp only [OBD2.decode_mode_01] at hmem
  split at hmem
  · simp at hmem
  · split at hmem
    · simp at hmem
    · split at hmem
      · simp at hmem
      · split at hmem
        · simp at hmem
        · rename_i pid_def hdef
          split at hmem
          · simp at hmem
          · simp only [List.mem_singleton] at hmem
            subst hmem
            exact ⟨pid_def, hdef, rfl⟩

/-- Claim C6: every OBD-II parameter the decoder emits carries
`value = round(formula(raw), 2)` for its PID's table formula; and decoding
`41 0C 27 10` yields a mode-0x01 response message with the single parameter
{engine_rpm, 2500.0, rpm}. -/
theorem c6_parameter_rounding :
    (∀ (data : List Nat) (msg : OBD2.OBD2Message) (p : OBD2.OBD2Parameter),
      OBD2.decode_message data = some msg → p ∈ msg.parameters →
      ∃ d, OBD2.pid_definitions p.pid = some d ∧
        p.value = py_round2 (d.formula p.raw_value)) ∧
    OBD2.decode_message [0x41, 0x0C, 0x27, 0x10] =
      some { mode := 0x01, mode_name := "SHOW_CURRENT_DATA", pid := some 0x0C,
             parameters := [⟨"engine_rpm", 0x0C, 2500, "rpm", [0x27, 0x10]⟩],
             is_response := true } := by
  constructor
  · intro data msg p hdec hmem
    simp only [OBD2.decode_message] at hdec
    split at hdec
    · exact absurd hdec (by simp)
    · split at hdec
      all_goals try split at hdec
      all_goals try split at hdec
      all_goals rw [Option.some.injEq] at hdec
      all_goals subst hdec
      all_goals first
        | exact mem_decode_mode_01 _ _ _ hmem
        | simp at hmem
  · have h2500 : py_round2 (2500 : ℚ) = 2500 := by
      have h := py_round2_intCast 2500
      push_cast at h
      exact h
    norm_num [OBD2.decode_message, OBD2.decode_mode_01, OBD2.pid_definitions,
      OBD2.get_mode_name, byteAt, h2500]

/-- Claim C6 (witness): the rounding law applied to the engine_rpm parameter
produced by decoding `41 0C 27 10`. -/
theorem c6_parameter_rounding_witness :
    ∃ d, OBD2.pid_definitions
        ((⟨"engine_rpm", 0x0C, 2500, "rpm", [0x27, 0x10]⟩ : OBD2.OBD2Parameter).pid)
        = some d ∧
      (⟨"engine_rpm", 0x0C, 2500, "rpm", [0x27, 0x10]⟩ : OBD2.OBD2Parameter).value =
        py_round2 (d.formula
          ((⟨"engine_rpm", 0x0C, 2500, "rpm", [0x27, 0x10]⟩ : OBD2.OBD2Parameter).raw_value)) :=
  c6_parameter_rounding.1 [0x41, 0x0C, 0x27, 0x10]
    { mode := 0x01, mode_name := "SHOW_CURRENT_DATA", pid := some 0x0C,
      parameters := [⟨"engine_rpm", 0x0C, 2500, "rpm", [0x27, 0x10]⟩],
      is_response := true }
    ⟨"engine_rpm", 0x0C, 2500, "rpm", [0x27, 0x10]⟩
    c6_parameter_rounding.2 (by simp)

/-- Helper: `add_message` with room to spare in the current batch and a batch
started at the current instant only accumulates. -/
theorem spool_add_accum (μ : Type) (c : Spool.SpoolCodec μ) (now : ℚ)
    (ms : List μ) :
    ∀ (batch : List μ) (size : Nat) (rows : List Spool.SpoolRow) (nid : Nat)
      (w : List String),
      size + (ms.map c.msg_json_len).sum < Spool.MAX_BATCH_SIZE →
      ms.foldl (Spool.add_message c now) ⟨rows, nid, batch, size, now, w⟩ =
        ⟨rows, nid, batch ++ ms, size + (ms.map c.msg_json_len).sum, now, w⟩ := by
  induction ms with
  | nil => intro batch size rows nid w _; simp
  | cons m rest ih =>
    intro batch size rows nid w h
    simp only [List.map_cons, List.sum_cons] at h
    have hstep : Spool.add_message c now (⟨rows, nid, batch, size, now, w⟩ :
        Spool.LocalBuffer μ) m =
        ⟨rows, nid, batch ++ [m], size + c.msg_json_len m, now, w⟩ := by
      simp only [Spool.add_message]
      rw [if_neg]
      push_neg
      constructor
      · simp only [Spool.MAX_BATCH_SIZE] at *
        omega
      · simp [Spool.BATCH_TIME_WINDOW]
    simp only [List.foldl_cons, hstep]
    rw [ih (batch ++ [m]) (size + c.msg_json_len m) rows nid w (by omega)]
    simp only [List.map_cons, List.sum_cons, List.append_assoc,
      List.singleton_append]
    congr 1
    omega

/-- Claim C5: flushing any message list accumulated in the in-memory batch
yields one pending batch whose decompression (the gzip/JSON round trip)
returns exactly those messages in enqueue order, and after `mark_transmitted`
of that batch's id the batch no longer appears among the pending batches. -/
theorem c5_spool_roundtrip (μ : Type) (c : Spool.SpoolCodec μ)
    (hcodec : ∀ l, c.decompress_parse (c.compress l) = l)
    (msgs : List μ) (hne : msgs ≠ []) (now : ℚ)
    (hsize : (msgs.map c.msg_json_len).sum < Spool.MAX_BATCH_SIZE)
    (hcap : (c.compress msgs).length ≤ Spool.MAX_BUFFER_SIZE) :
    Spool.get_pending_batches
        (Spool.flush c now (msgs.foldl (Spool.add_message c now)
          (Spool.init_buffer μ now))) 10 =
      [⟨1, now, c.compress msgs, (c.compress msgs).length,
        c.batch_json_len msgs, false⟩] ∧
    Spool.decompress_batch c ⟨1, now, c.compress msgs, (c.compress msgs).length,
        c.batch_json_len msgs, false⟩ = msgs ∧
    Spool.get_pending_batches
        (Spool.mark_transmitted
          (Spool.flush c now (msgs.foldl (Spool.add_message c now)
            (Spool.init_buffer μ now))) 1) 10 = [] := by
  have hfold : msgs.foldl (Spool.add_message c now) (Spool.init_buffer μ now) =
      ⟨[], 1, msgs, (msgs.map c.msg_json_len).sum, now, []⟩ := by
    have h := spool_add_accum μ c now msgs [] 0 [] 1 [] (by omega)
    simpa [Spool.init_buffer] using h
  have hflush : Spool.flush c now (⟨[], 1, msgs, (msgs.map c.msg_json_len).sum,
        now, []⟩ : Spool.LocalBuffer μ) =
      ⟨[⟨1, now, c.compress msgs, (c.compress msgs).length,
         c.batch_json_len msgs, false⟩], 2, [], 0, now, []⟩ := by
    cases msgs with
    | nil => exact absurd rfl hne
    | cons m ms =>
      simp only [Spool.flush, Spool.store_batch, List.isEmpty_cons,
        Bool.false_eq_true, if_false, Spool.check_buffer_size, List.nil_append,
        List.map_cons, List.map_nil, List.sum_cons, List.sum_nil]
      rw [if_neg (by simpa using not_lt.mpr hcap)]
  rw [hfold, hflush]
  refine ⟨?_, ?_, ?_⟩
  · simp [Spool.get_pending_batches]
  · simp [Spool.decompress_batch, hcodec]
  · simp [Spool.mark_transmitted, Spool.get_pending_batches]

/-- Claim C5 (witness): the round trip for the five messages 1..5 under the
identity codec at time 0. -/
theorem c5_spool_roundtrip_witness :
    Spool.get_pending_batches
        (Spool.flush idCodec 0 ([1,2,3,4,5].foldl (Spool.add_message idCodec 0)
          (Spool.init_buffer Nat 0))) 10 =
      [⟨1, 0, idCodec.compress [1,2,3,4,5], (idCodec.compress [1,2,3,4,5]).length,
        idCodec.batch_json_len [1,2,3,4,5], false⟩] ∧
    Spool.decompress_batch idCodec ⟨1, 0, idCodec.compress [1,2,3,4,5],
        (idCodec.compress [1,2,3,4,5]).length, idCodec.batch_json_len [1,2,3,4,5],
        false⟩ = [1,2,3,4,5] ∧
    Spool.get_pending_batches
        (Spool.mark_transmitted
          (Spool.flush idCodec 0 ([1,2,3,4,5].foldl (Spool.add_message idCodec 0)
            (Spool.init_buffer Nat 0))) 1) 10 = [] :=
  c5_spool_roundtrip Nat idCodec (fun _ => rfl) [1,2,3,4,5] (by decide) 0
    (by decide) (by decide)

/-- Helper: a filter and its complement partition a list's length. -/
theorem length_filter_add_not (p : α → Bool) (l : List α) :
    (l.filter p).length + (l.filter (fun a => !p a)).length = l.length := by
  induction l with
  | nil => simp
  | cons a t ih =>
    by_cases h : p a = true <;> simp [List.filter_cons, h] <;> omega

/-- Claim C3 (counterexample to the claim as stated): with a codec that
compresses a 2 GB JSON batch to one byte, `_store_batch` leaves the store with
a single unsent row and logs no warning even though the sum of the rows'
uncompressed sizes exceeds the 1 GiB cap — the cap check sums the stored
`size_bytes` (compressed lengths), not the uncompressed sizes. -/
theorem c3_counterexample :
    Spool.store_batch gzCodec 0 ⟨[], 1, [7], 0, 0, []⟩ =
      (⟨[⟨1, 0, [0], 1, 2000000000, false⟩], 2, [], 0, 0, []⟩ :
        Spool.LocalBuffer Nat) ∧
    Spool.MAX_BUFFER_SIZE <
      (([⟨1, 0, [0], 1, 2000000000, false⟩] : List Spool.SpoolRow).map
        (fun r => r.uncompressed_size)).sum := by
  decide

/-- Claim C3 (amended): `_store_batch` runs the size check right after every
insert, and whenever the sum of the stored `size_bytes` (the compressed blob
lengths) exceeds the 1 GiB cap, the check evicts the sent rows (oldest first,
in fact all of them) and leaves unsent rows untouched; only when no sent row
exists does it evict the oldest 10 unsent rows — logging a warning in either
case. -/
theorem c3_spool_eviction :
    (∀ (μ : Type) (c : Spool.SpoolCodec μ) (now : ℚ) (s : Spool.LocalBuffer μ),
      s.current_batch.isEmpty = false →
      (Spool.store_batch c now s).rows =
        (Spool.check_buffer_size (s.rows ++
          [⟨s.next_id, now, c.compress s.current_batch,
            (c.compress s.current_batch).length,
            c.batch_json_len s.current_batch, false⟩])).1) ∧
    (∀ rows : List Spool.SpoolRow,
      (rows.map (fun r => r.id)).Nodup →
      Spool.MAX_BUFFER_SIZE < (rows.map (fun r => r.size_bytes)).sum →
      (rows.any (fun r => r.transmitted) = true →
        Spool.check_buffer_size rows =
          (rows.filter (fun r => !r.transmitted),
           [Spool.buffer_warning (rows.filter (fun r => r.transmitted)).length])) ∧
      (rows.any (fun r => r.transmitted) = false →
        Spool.check_buffer_size rows =
          (rows.drop 10, [Spool.buffer_warning (min 10 rows.length)]))) := by
  constructor
  · intro μ c now s hne
    simp only [Spool.store_batch, hne, Bool.false_eq_true, if_false]
  · intro rows hnodup hcap
    have hinj : ∀ x ∈ rows, ∀ y ∈ rows, x.id = y.id → x = y := by
      intro x hx y hy hxy
      exact List.inj_on_of_nodup_map hnodup hx hy hxy
    have hpred : rows.filter (fun r => r.transmitted &&
        decide (Spool.MAX_BUFFER_SIZE < (rows.map (fun r => r.size_bytes)).sum)) =
        rows.filter (fun r => r.transmitted) := by
      apply List.filter_congr
      intro a _
      simp [hcap]
    constructor
    · intro hany
      simp only [Spool.check_buffer_size]
      rw [if_pos hcap, hpred, List.take_length]
      have hmem : ∀ r ∈ rows,
          ((rows.filter (fun x => x.transmitted)).map (fun x => x.id)).contains r.id
            = r.transmitted := by
        intro r hr
        by_cases ht : r.transmitted = true
        · have hm : r.id ∈ (rows.filter (fun x => x.transmitted)).map
              (fun x => x.id) :=
            List.mem_map_of_mem _ (List.mem_filter.mpr ⟨hr, ht⟩)
          simp [List.contains, List.elem_eq_mem, hm, ht]
        · have hm : ¬ r.id ∈ (rows.filter (fun x => x.transmitted)).map
              (fun x => x.id) := by
            intro hmm
            obtain ⟨r', hr', hid⟩ := List.mem_map.mp hmm
            obtain ⟨hr'rows, hr't⟩ := List.mem_filter.mp hr'
            rw [hinj r' hr'rows r hr hid] at hr't
            exact ht hr't
          rw [Bool.not_eq_true] at ht
          simp [List.contains, List.elem_eq_mem, hm, ht]
      have hrows1 : rows.filter (fun r =>
          !(((rows.filter (fun x => x.transmitted)).map (fun x => x.id)).contains
            r.id)) = rows.filter (fun r => !r.transmitted) := by
        apply List.filter_congr
        intro a ha
        rw [hmem a ha]
      rw [hrows1]
      have hlen : (rows.filter (fun r => r.transmitted)).length +
          (rows.filter (fun r => !r.transmitted)).length = rows.length :=
        length_filter_add_not _ rows
      have hpos : (rows.filter (fun r => r.transmitted)).length ≠ 0 := by
        obtain ⟨x, hx, hxt⟩ := List.any_eq_true.mp hany
        have hxf : x ∈ rows.filter (fun r => r.transmitted) :=
          List.mem_filter.mpr ⟨hx, hxt⟩
        have := List.length_pos.mpr (List.ne_nil_of_mem hxf)
        omega
      have hsub : rows.length - (rows.filter (fun r => !r.transmitted)).length =
          (rows.filter (fun r => r.transmitted)).length := by omega
      rw [hsub, if_neg hpos]
    · intro hany
      have hnone : rows.filter (fun r => r.transmitted) = [] := by
        rw [List.filter_eq_nil_iff]
        intro a ha
        exact List.any_eq_false.mp hany a ha
      simp only [Spool.check_buffer_size]
      rw [if_pos hcap, hpred, hnone]
      simp only [List.take_nil, List.map_nil, List.contains_nil, Bool.not_false,
        List.filter_true, Nat.sub_self, if_pos]
      have hdrop : rows.filter (fun r =>
          !(((rows.take 10).map (fun x => x.id)).contains r.id)) = rows.drop 10 := by
        have hsplit : rows.filter (fun r =>
            !(((rows.take 10).map (fun x => x.id)).contains r.id)) =
            (rows.take 10).filter (fun r =>
              !(((rows.take 10).map (fun x => x.id)).contains r.id)) ++
            (rows.drop 10).filter (fun r =>
              !(((rows.take 10).map (fun x => x.id)).contains r.id)) := by
          rw [← List.filter_append, List.take_append_drop]
        rw [hsplit]
        have h1 : (rows.take 10).filter (fun r =>
            !(((rows.take 10).map (fun x => x.id)).contains r.id)) = [] := by
          rw [List.filter_eq_nil_iff]
          intro a ha
          simp only [List.contains, List.elem_eq_mem, Bool.not_eq_true,
            Bool.not_eq_false', decide_eq_true_eq]
          exact List.mem_map_of_mem _ ha
        have h2 : (rows.drop 10).filter (fun r =>
            !(((rows.take 10).map (fun x => x.id)).contains r.id)) =
            rows.drop 10 := by
          rw [List.filter_eq_self]
          intro a ha
          have hm : ¬ a.id ∈ (rows.take 10).map (fun x => x.id) := by
            intro hmm
            obtain ⟨b, hb, hid⟩ := List.mem_map.mp hmm
            have hbrows : b ∈ rows := List.mem_of_mem_take hb
            have harows : a ∈ rows := List.mem_of_mem_drop ha
            rw [hinj b hbrows a harows hid] at hb
            exact (List.disjoint_take_drop (List.Nodup.of_map _ hnodup)
              (le_refl 10)) hb ha
          simp only [List.contains, List.elem_eq_mem, Bool.not_eq_true',
            decide_eq_false_iff_not]
          exact hm
        rw [h1, h2, List.nil_append]
      rw [hdrop]
      have hmin : rows.length - (rows.drop 10).length = min 10 rows.length := by
        rw [List.length_drop]
        omega
      rw [hmin]

/-- Claim C3 (witness): the sent-first eviction branch on a concrete two-row
store — one sent, one unsent — whose compressed sizes sum above the cap: the
sent row is evicted, the unsent row survives, and one warning is logged. -/
theorem c3_spool_eviction_witness :
    Spool.check_buffer_size
        [⟨1, 0, [], 600000000, 0, true⟩, ⟨2, 1, [], 600000000, 0, false⟩] =
      (([⟨1, 0, [], 600000000, 0, true⟩, ⟨2, 1, [], 600000000, 0, false⟩] :
          List Spool.SpoolRow).filter (fun r => !r.transmitted),
       [Spool.buffer_warning
         (([⟨1, 0, [], 600000000, 0, true⟩, ⟨2, 1, [], 600000000, 0, false⟩] :
            List Spool.SpoolRow).filter (fun r => r.transmitted)).length]) :=
  (c3_spool_eviction.2
    [⟨1, 0, [], 600000000, 0, true⟩, ⟨2, 1, [], 600000000, 0, false⟩]
    (by decide) (by decide)).1 (by decide)
